import Mathlib

/-!
Verification of the `oneshot` single-value channel crate.

This development shallowly embeds the crate: the storage layer
(src/storage/abstractions.rs, src/storage/global.rs, src/storage/external.rs)
and the send-error taxonomy (src/errors.rs) are translated directly from the
source; the channel state machine itself (Channel, Sender, Receiver and their
operations) is not among the given source files, so those operations are
modelled from the specification (sections 3, 4.2 and 8), constrained where the
present source files pin their behaviour down (in particular, the SendError
type in errors.rs requires the failed message to sit inside the channel slot).

Machine integers do not occur on the modelled paths; pointers are modelled as
natural-number addresses into an explicit heap, and the caller-supplied
release callback of the external storage strategy is modelled as an opaque
identifier whose invocations are recorded as events.
-/

namespace Oneshot

/-- Modelled from the spec (section 3): a waiting context is a tagged value,
either a blocking-thread token or an asynchronous notification token. The
token payloads are opaque; we model them as identifiers. -/
inductive WaitingContext where
  | threadToken (id : Nat)
  | asyncToken (id : Nat)
deriving DecidableEq

/-- Modelled from the spec (section 3): the atomic state word of a channel.
Empty is initial; Disconnected is terminal and also serves as the consumed
terminal after a successful receive (per errors.rs lines 116-118, a closed
channel means the sender was dropped or the message was already extracted). -/
inductive State where
  | empty
  | waiting (ctx : WaitingContext)
  | messageReady
  | disconnected
deriving DecidableEq

/-- Modelled from the spec (section 3): the shared channel record - an atomic
state word plus a message slot that is uninitialized until written (none) and
read at most once. The `writes` and `reads` fields instrument the model: they
count how many times the slot has been written and taken, so that the
write-at-most-once / read-at-most-once invariants are statable. -/
structure Channel (α : Type) where
  state : State
  slot : Option α
  writes : Nat
  reads : Nat
deriving DecidableEq

/-- Modelled from the spec: `Channel::new()` - fresh channel, Empty state,
uninitialized slot. -/
def Channel.new (α : Type) : Channel α :=
  ⟨State.empty, none, 0, 0⟩

/-- Modelled from the spec: writing the message into the slot (the first half
of `send`). Increments the write instrumentation counter. -/
def Channel.write_message {α : Type} (ch : Channel α) (v : α) : Channel α :=
  { ch with slot := some v, writes := ch.writes + 1 }

/-- The `Channel::take_message` operation used by errors.rs line 50: moves the
message out of the slot. Returns none when the slot was never written (the
source marks that situation a safety violation; the model makes it
observable). Increments the read instrumentation counter. -/
def Channel.take_message {α : Type} (ch : Channel α) : Option α × Channel α :=
  (ch.slot, { ch with slot := none, reads := ch.reads + 1 })

/-- The `Channel::drop_message` operation used by errors.rs line 70: runs the
destructor of the message in the slot. The returned list holds the messages
whose destructor ran (empty or a singleton). -/
def Channel.drop_message {α : Type} (ch : Channel α) : Channel α × List α :=
  ({ ch with slot := none }, ch.slot.toList)

/-- Observable resource events of the model: a storage-family release
(`Storage::release`), a message destructor run (`Channel::drop_message`), and
an invocation of a caller-supplied external release callback with a pointer
(external.rs line 75). -/
inductive Event where
  | released
  | messageDropped
  | callbackInvoked (f p : Nat)
deriving DecidableEq

/-- From errors.rs lines 14-18: `SendError` holds a storage handle whose
pointee it structurally owns. In the model the owned channel value stands for
the pointee of that storage clone; per the safety contract of
`SendError::new` (errors.rs lines 24-29) the slot must hold the initialized
undelivered message. -/
structure SendError (α : Type) where
  channel : Channel α
deriving DecidableEq

/-- From errors.rs lines 39-56: `into_inner` clones the storage, forgets
`self` (so the `Drop` impl does not run - its events are therefore absent
from this trace), takes the message out of the channel, and releases the
storage. Returns the extracted message together with the resource events of
this path. -/
def SendError.into_inner {α : Type} (e : SendError α) : Option α × List Event :=
  let t := e.channel.take_message
  (t.1, [Event.released])

/-- From errors.rs lines 60-62: `as_inner` returns a reference to the message
inside the channel slot, by shared reference, touching nothing. -/
def SendError.as_inner {α : Type} (e : SendError α) : Option α :=
  e.channel.slot

/-- The observable effect of one `as_inner` call (errors.rs lines 60-62): the
call takes `&self`, so it returns the message, the unchanged error, and an
empty resource-event trace. -/
def asInnerCall {α : Type} (e : SendError α) : Option α × SendError α × List Event :=
  (e.channel.slot, e, [])

/-- From errors.rs lines 65-74: the `Drop` impl for `SendError` runs
`drop_message` and then `release`, in that order. Returns the resource events
of this path. -/
def SendError.drop {α : Type} (e : SendError α) : List Event :=
  (e.channel.drop_message).2.map (fun _ => Event.messageDropped) ++ [Event.released]

/-- From errors.rs lines 112-119: the non-blocking receive error. -/
inductive TryRecvError where
  | Empty
  | Disconnected
deriving DecidableEq

/-- From errors.rs line 97: the blocking receive error (zero-data tag). -/
inductive RecvError where
  | mk
deriving DecidableEq

/-- From errors.rs lines 138-145: the receive-with-deadline error. -/
inductive RecvTimeoutError where
  | Timeout
  | Disconnected
deriving DecidableEq

/-- Modelled from the spec (section 4.2): `Sender::send` is not among the
given source files. The spec says: write the value into the message slot,
then atomically swap the state to MessageReady; if the prior state held a
waiting context, wake it; if the prior state was Disconnected, return a
SendError. The value is written into the slot before the state swap even on
the Disconnected path: that order is forced by errors.rs, whose
`SendError::new` safety contract (lines 24-29) requires the channel to
contain a valid initialized message and whose `as_inner`/`into_inner` read
the undelivered value out of the channel slot. The second component is the
waiting context to wake, if any. -/
def send {α : Type} (ch : Channel α) (v : α) : (Channel α ⊕ SendError α) × Option WaitingContext :=
  let ch1 := { ch.write_message v with state := State.messageReady }
  match ch.state with
  | State.empty => (Sum.inl ch1, none)
  | State.waiting ctx => (Sum.inl ch1, some ctx)
  | State.messageReady => (Sum.inl ch1, none)
  | State.disconnected => (Sum.inr ⟨ch1⟩, none)

/-- Projects the channel out of the result of `send`, whichever side it lives
on (on the error side the SendError owns the channel). -/
def okChannel {α : Type} : (Channel α ⊕ SendError α) → Channel α
  | Sum.inl ch => ch
  | Sum.inr e => e.channel

/-- Modelled from the spec (section 4.2): `Receiver::try_recv` - MessageReady:
take the value, move to the consumed terminal (Disconnected, per errors.rs
lines 116-118); Empty or Waiting: report empty, channel still open;
Disconnected: report closed. -/
def try_recv {α : Type} (ch : Channel α) : (α ⊕ TryRecvError) × Channel α :=
  match ch.state with
  | State.messageReady =>
      let t := ch.take_message
      match t.1 with
      | some v => (Sum.inl v, { t.2 with state := State.disconnected })
      | none => (Sum.inr TryRecvError.Disconnected, t.2)
  | State.empty => (Sum.inr TryRecvError.Empty, ch)
  | State.waiting _ => (Sum.inr TryRecvError.Empty, ch)
  | State.disconnected => (Sum.inr TryRecvError.Disconnected, ch)

/-- Modelled from the spec (sections 4.2 and 6): blocking `Receiver::recv`,
restricted to the immediately-resolvable cases used by the given examples -
MessageReady yields the value and the consumed terminal, Disconnected yields
the error. The suspension paths (Empty/Waiting) are not modelled here; the
scenario theorems only exercise the immediate cases. -/
def recv {α : Type} (ch : Channel α) : (α ⊕ RecvError) × Channel α :=
  match ch.state with
  | State.messageReady =>
      let t := ch.take_message
      match t.1 with
      | some v => (Sum.inl v, { t.2 with state := State.disconnected })
      | none => (Sum.inr RecvError.mk, t.2)
  | State.disconnected => (Sum.inr RecvError.mk, ch)
  | State.empty => (Sum.inr RecvError.mk, ch)
  | State.waiting _ => (Sum.inr RecvError.mk, ch)

/-- Modelled from the spec (section 4.2): dropping the Receiver while not yet
resolved moves the state to Disconnected; if a message had been written and
never taken, its destructor runs during this transition. The second component
lists the messages dropped. -/
def receiver_drop {α : Type} (ch : Channel α) : Channel α × List α :=
  match ch.state with
  | State.messageReady =>
      let t := ch.drop_message
      ({ t.1 with state := State.disconnected }, t.2)
  | _ => ({ ch with state := State.disconnected }, [])

/-- Modelled from the spec (section 4.2): dropping the Sender without sending
moves the state to Disconnected; if the prior state was Waiting, the recorded
context is woken (second component). -/
def sender_drop {α : Type} (ch : Channel α) : Channel α × Option WaitingContext :=
  match ch.state with
  | State.waiting ctx => ({ ch with state := State.disconnected }, some ctx)
  | _ => ({ ch with state := State.disconnected }, none)

/-- A channel whose receiver is suspended with a registered waiting context
and nothing sent yet - the state from which the recv_timeout deadline race of
the spec (section 4.2) starts. -/
def chWaiting (α : Type) (ctx : WaitingContext) : Channel α :=
  ⟨State.waiting ctx, none, 0, 0⟩

/-- Modelled from the spec (section 4.2): the deadline-expiry step of
`recv_timeout`. While still Waiting, reclaim the slot via a compare-and-swap
back to Empty and report Timeout; if that compare-and-swap loses against a
concurrent send (state already MessageReady), take and return the delivered
value instead of reporting timeout; Disconnected reports disconnection. Real
time is abstracted away: this function is the action taken at the moment the
deadline elapses. -/
def timeout_expire {α : Type} (ch : Channel α) : (α ⊕ RecvTimeoutError) × Channel α :=
  match ch.state with
  | State.waiting _ => (Sum.inr RecvTimeoutError.Timeout, { ch with state := State.empty })
  | State.messageReady =>
      let t := ch.take_message
      match t.1 with
      | some v => (Sum.inl v, { t.2 with state := State.disconnected })
      | none => (Sum.inr RecvTimeoutError.Disconnected, t.2)
  | State.disconnected => (Sum.inr RecvTimeoutError.Disconnected, ch)
  | State.empty => (Sum.inr RecvTimeoutError.Timeout, ch)

/-- Modelled from the spec (section 4.1) and abstractions.rs lines 16-23:
creating a channel over a storage location places a fresh Channel at that
location, overwriting existing contents, before any dereference. This is the
per-construction content of `channel_with_storage`, which is not among the
given source files. -/
def initStorage {α : Type} (_cell : Channel α) : Channel α :=
  Channel.new α

/-- One complete exchange over a caller-owned external storage cell, as in
examples/external_storage_embedded_reused.rs: construct a channel over the
cell (which places a fresh Channel there), send `v`, receive, and return the
received value together with the cell contents left behind for the caller
(the noop release callback of the example leaves the cell untouched). -/
def exchange {α : Type} (cell : Channel α) (v : α) : Option α × Channel α :=
  let ch0 := initStorage cell
  let ch1 := okChannel (send ch0 v).1
  let r := recv ch1
  (match r.1 with
   | Sum.inl x => some x
   | Sum.inr _ => none,
   r.2)

/-- A heap of channel cells addressed by natural numbers: `next` is the next
fresh address (allocation starts at 1 so that address 0 can serve as the
dangling pointer), `cells` the live allocations. Models the global allocator
for the Global strategy and the set of caller-owned `ChannelStorage` cells
for the External strategy. -/
structure GHeap (α : Type) where
  next : Nat
  cells : List (Nat × Channel α)
deriving DecidableEq

/-- Looks an address up in the heap. -/
def GHeap.lookup {α : Type} (h : GHeap α) (p : Nat) : Option (Channel α) :=
  (h.cells.find? (fun kv => kv.1 == p)).map (fun kv => kv.2)

/-- Removes an address from the heap (`drop(Box::from_raw(..))` in
storage/global.rs lines 64-67 deallocates the box). -/
def GHeap.dealloc {α : Type} (h : GHeap α) (p : Nat) : GHeap α :=
  { h with cells := h.cells.filter (fun kv => kv.1 != p) }

/-- The model of `NonNull::dangling()`: a fixed address that is never
allocated (allocation starts at 1). -/
def danglingPtr : Nat := 0

/-- From storage/global.rs lines 12-17: the Global storage handle wraps a raw
pointer to a heap-allocated Channel. -/
structure Global (α : Type) where
  ptr : Nat
deriving DecidableEq

/-- From storage/global.rs lines 20-24: `Global::new` boxes a fresh Channel,
leaks it, and wraps the pointer. -/
def Global.new {α : Type} (h : GHeap α) : GHeap α × Global α :=
  ({ next := h.next + 1, cells := (h.next, Channel.new α) :: h.cells }, ⟨h.next⟩)

/-- From storage/global.rs lines 46-50: `as_ref` dereferences the wrapped
pointer; none models a dereference of a dead pointer (undefined behaviour in
the source, observable in the model). -/
def Global.as_ref {α : Type} (h : GHeap α) (s : Global α) : Option (Channel α) :=
  h.lookup s.ptr

/-- From storage/global.rs lines 52-57: `release` deallocates the pointee and
sets the pointer dangling. The deallocation drops the Channel value but not a
message still sitting in its slot: the slot is a MaybeUninit-style field
whose destructor never runs on a plain drop (external.rs lines 49-53 document
this, and the SendError Drop impl in errors.rs lines 65-74 calls
`drop_message` before `release` - were release itself to drop the message, it
would run its destructor twice). The source does not check liveness; the
model returns none when the pointer is already dead, making the
release-exactly-once precondition observable. The event list records the
release. -/
def Global.release {α : Type} (h : GHeap α) (s : Global α) :
    Option (GHeap α × Global α × List Event) :=
  match h.lookup s.ptr with
  | some _ => some (h.dealloc s.ptr, ⟨danglingPtr⟩, [Event.released])
  | none => none

/-- From storage/global.rs lines 59-61: `clone` copies the pointer. -/
def Global.clone {α : Type} (s : Global α) : Global α :=
  ⟨s.ptr⟩

/-- From storage/external.rs lines 16-21: the External storage handle wraps a
caller-supplied pointer to a ChannelStorage cell plus a release callback (a
function pointer, modelled as an opaque identifier). -/
structure External (α : Type) where
  ptr : Nat
  release : Nat
deriving DecidableEq

/-- From storage/external.rs lines 33-41: `External::new` stores the supplied
pointer and callback. -/
def External.new (α : Type) (storage : Nat) (releaseFn : Nat) : External α :=
  ⟨storage, releaseFn⟩

/-- From storage/external.rs lines 84-91: `as_ref` dereferences the wrapped
pointer to the ChannelStorage cell and yields the Channel inside (the
UnsafeCell layer is transparent in the model). -/
def External.as_ref {α : Type} (h : GHeap α) (s : External α) : Option (Channel α) :=
  h.lookup s.ptr

/-- From storage/external.rs lines 72-82: the External `release` invokes the
caller-supplied callback with the stored pointer and (under debug assertions)
sets the pointer dangling; it never dereferences or modifies the Channel
inside the cell - the caller manages it. The cell is threaded through
unchanged to make that visible (the noop callback of the examples leaves it
intact); the event trace records the callback invocation. -/
def External.releaseWithCell {α : Type} (cell : Channel α) (s : External α) :
    Channel α × External α × List Event :=
  (cell, ⟨danglingPtr, s.release⟩, [Event.callbackInvoked s.release s.ptr])

/-- From storage/external.rs lines 93-98: `clone` copies the pointer and the
callback. -/
def External.clone {α : Type} (s : External α) : External α :=
  ⟨s.ptr, s.release⟩

/-! Helper lemmas. -/

/-- Filtering an association list by one key removes every entry `find?`
could return for that key. -/
theorem find_filtered_out {α : Type} (l : List (Nat × Channel α)) (p : Nat) :
    (l.filter (fun kv => kv.1 != p)).find? (fun kv => kv.1 == p) = none := by
  induction l with
  | nil => rfl
  | cons kv tl ih =>
      by_cases hk : kv.1 = p
      · simp [List.filter_cons, hk, ih]
      · simp [List.filter_cons, hk, ih, List.find?_cons]

/-- Looking up a deallocated address yields nothing. -/
theorem lookup_dealloc {α : Type} (h : GHeap α) (p : Nat) :
    (h.dealloc p).lookup p = none := by
  simp [GHeap.dealloc, GHeap.lookup, find_filtered_out]

/-- Cloning a Global handle any number of times yields the same handle. -/
theorem global_clone_iterate {α : Type} (s : Global α) (n : Nat) :
    (Global.clone)^[n] s = s :=
  Function.iterate_fixed rfl n

/-- Cloning an External handle any number of times yields the same handle. -/
theorem external_clone_iterate {α : Type} (s : External α) (n : Nat) :
    (External.clone)^[n] s = s :=
  Function.iterate_fixed rfl n

/-! The claims. -/

/-- Claim C1: dropping the Receiver and then calling send(v) returns a
SendError from which into_inner extracts exactly v (and as_inner shows
exactly v); the undelivered value is returned to the caller unchanged. -/
theorem dropped_receiver_send_error_returns_value (α : Type) (v : α) :
    ∃ e : SendError α,
      (send ((receiver_drop (Channel.new α)).1) v).1 = Sum.inr e
      ∧ SendError.as_inner e = some v
      ∧ (SendError.into_inner e).1 = some v :=
  ⟨⟨⟨State.messageReady, some v, 1, 0⟩⟩, rfl, rfl, rfl⟩

/-- Claim C2: send(v) then try_recv() yields v; a second try_recv() yields
Disconnected, never v again; along that trace the slot is written exactly
once and read exactly once; and no modelled operation ever moves a channel
from MessageReady back to Empty. -/
theorem send_try_recv_delivers_exactly_once (α : Type) (v : α) :
    (try_recv (okChannel (send (Channel.new α) v).1)).1 = Sum.inl v
    ∧ (try_recv (try_recv (okChannel (send (Channel.new α) v).1)).2).1
        = Sum.inr TryRecvError.Disconnected
    ∧ (try_recv (try_recv (okChannel (send (Channel.new α) v).1)).2).2.writes = 1
    ∧ (try_recv (try_recv (okChannel (send (Channel.new α) v).1)).2).2.reads = 1
    ∧ (∀ (sl : Option α) (w r : Nat),
        (okChannel (send (Channel.mk State.messageReady sl w r) v).1).state ≠ State.empty
        ∧ (try_recv (Channel.mk State.messageReady sl w r)).2.state ≠ State.empty
        ∧ (receiver_drop (Channel.mk State.messageReady sl w r)).1.state ≠ State.empty
        ∧ (sender_drop (Channel.mk State.messageReady sl w r)).1.state ≠ State.empty
        ∧ (timeout_expire (Channel.mk State.messageReady sl w r)).2.state ≠ State.empty) := by
  refine ⟨rfl, rfl, rfl, rfl, ?_⟩
  intro sl w r
  refine ⟨?_, ?_, ?_, ?_, ?_⟩ <;>
    cases sl <;>
      simp [send, okChannel, try_recv, receiver_drop, sender_drop, timeout_expire,
        Channel.write_message, Channel.take_message, Channel.drop_message]

/-- Claim C3: for a SendError whose channel slot holds the undelivered value,
the extraction path (into_inner) returns the value and releases the storage
exactly once while running no message destructor (the Drop impl is
suppressed), and the drop path runs the message destructor exactly once and
releases the storage exactly once. -/
theorem send_error_cleanup_exactly_once (α : Type) (v : α) (st : State) (w r : Nat) :
    (SendError.into_inner (⟨⟨st, some v, w, r⟩⟩ : SendError α)).1 = some v
    ∧ ((SendError.into_inner (⟨⟨st, some v, w, r⟩⟩ : SendError α)).2).count Event.released = 1
    ∧ ((SendError.into_inner (⟨⟨st, some v, w, r⟩⟩ : SendError α)).2).count Event.messageDropped = 0
    ∧ (SendError.drop (⟨⟨st, some v, w, r⟩⟩ : SendError α)).count Event.released = 1
    ∧ (SendError.drop (⟨⟨st, some v, w, r⟩⟩ : SendError α)).count Event.messageDropped = 1 := by
  refine ⟨rfl, ?_, ?_, ?_, ?_⟩ <;>
    simp [SendError.into_inner, SendError.drop, Channel.take_message, Channel.drop_message,
      List.count_cons]

/-- Claim C4 (counterexample): on the failure path the message slot does not
remain unwritten. Sending 42 on a channel whose receiver was dropped leaves
the slot holding 42 with one write recorded - necessarily so, because
SendError carries the undelivered value inside the channel slot (errors.rs
lines 24-29, 50, 61): the last conjunct shows that a SendError over an
unwritten slot cannot return the value from into_inner. -/
theorem send_on_disconnected_writes_slot :
    (okChannel (send ((receiver_drop (Channel.new Nat)).1) 42).1).slot = some 42
    ∧ (okChannel (send ((receiver_drop (Channel.new Nat)).1) 42).1).writes = 1
    ∧ (SendError.into_inner (⟨⟨State.disconnected, none, 0, 0⟩⟩ : SendError Nat)).1 = none := by
  decide

/-- Claim C4 (amended): if the channel state is Disconnected when send(v) is
called, send returns an error carrying v unchanged (as_inner and into_inner
both yield exactly v); the value is written into the message slot, which the
returned error owns, and no receiver can observe it. -/
theorem send_on_disconnected_carries_value (α : Type) (v : α) (sl : Option α) (w r : Nat) :
    ∃ e : SendError α,
      (send (Channel.mk State.disconnected sl w r) v).1 = Sum.inr e
      ∧ SendError.as_inner e = some v
      ∧ (SendError.into_inner e).1 = some v
      ∧ e.channel.slot = some v :=
  ⟨⟨⟨State.messageReady, some v, w + 1, r⟩⟩, rfl, rfl, rfl, rfl⟩

/-- Claim C5 (counterexample): release() does not drop an unread message
still in the slot. Releasing an External family whose cell still holds
message 7 invokes only the caller callback: the cell keeps the message (the
source never dereferences the channel during release) and no message
destructor runs. -/
theorem release_leaves_unread_message :
    (External.releaseWithCell (⟨State.messageReady, some 7, 1, 0⟩ : Channel Nat) ⟨1, 0⟩).1.slot
        = some 7
    ∧ Event.messageDropped ∉
        (External.releaseWithCell (⟨State.messageReady, some 7, 1, 0⟩ : Channel Nat) ⟨1, 0⟩).2.2 := by
  decide

/-- Claim C5 (amended): release() invalidates the entire clone family and can
run only once per family. Global release deallocates the Channel (after which
every clone dereferences to nothing and a second release fails its
precondition) without running the destructor of an unread message; External
release invokes the caller release callback with the storage pointer and
leaves the cell and its contents to the caller. -/
theorem release_invalidates_family_once (α : Type)
    (rest : List (Nat × Channel α)) (nx p : Nat) (ch : Channel α) :
    ∃ h2 s2 evs, Global.release (GHeap.mk nx ((p, ch) :: rest)) (⟨p⟩ : Global α)
        = some (h2, s2, evs)
      ∧ (∀ n : Nat, Global.as_ref h2 ((Global.clone)^[n] (⟨p⟩ : Global α)) = none)
      ∧ Global.release h2 (⟨p⟩ : Global α) = none
      ∧ evs = [Event.released]
      ∧ evs.count Event.messageDropped = 0
      ∧ (∀ (cell : Channel α) (q f : Nat),
          (External.releaseWithCell cell (⟨q, f⟩ : External α)).2.2
              = [Event.callbackInvoked f q]
          ∧ (External.releaseWithCell cell (⟨q, f⟩ : External α)).1 = cell) := by
  have hlook : (GHeap.mk nx ((p, ch) :: rest) : GHeap α).lookup p = some ch := by
    simp [GHeap.lookup, List.find?_cons]
  refine ⟨(GHeap.mk nx ((p, ch) :: rest) : GHeap α).dealloc p, ⟨danglingPtr⟩,
    [Event.released], ?_, ?_, ?_, rfl, rfl, ?_⟩
  · simp [Global.release, hlook]
  · intro n
    rw [global_clone_iterate]
    simp [Global.as_ref, lookup_dealloc]
  · simp [Global.release, lookup_dealloc]
  · intro cell q f
    exact ⟨rfl, rfl⟩

/-- Claim C6: completing one channel over a caller-owned storage cell and
then constructing a second channel over the same cell yields a fully
functional fresh channel; whatever the cell contained beforehand, the first
exchange delivers a and the reused second exchange delivers b. -/
theorem external_storage_reuse (α : Type) (a b : α) (cell : Channel α) :
    (exchange cell a).1 = some a
    ∧ (exchange (exchange cell a).2 b).1 = some b :=
  ⟨rfl, rfl⟩

/-- Claim C7: from a Waiting state, deadline expiry with no send reports
Timeout (reclaiming the slot to Empty); if send wins the race, the expiry
step takes and returns the delivered value instead of reporting timeout (and
the send woke the recorded context); if expiry wins, it reports Timeout and
the subsequent send still succeeds, leaving the value ready in the slot -
the delivered value is never silently dropped. -/
theorem recv_timeout_race (α : Type) (v : α) (ctx : WaitingContext) :
    (timeout_expire (chWaiting α ctx)).1 = Sum.inr RecvTimeoutError.Timeout
    ∧ (timeout_expire (okChannel (send (chWaiting α ctx) v).1)).1 = Sum.inl v
    ∧ (send (chWaiting α ctx) v).2 = some ctx
    ∧ (okChannel (send ((timeout_expire (chWaiting α ctx)).2) v).1).state = State.messageReady
    ∧ (okChannel (send ((timeout_expire (chWaiting α ctx)).2) v).1).slot = some v
    ∧ (send ((timeout_expire (chWaiting α ctx)).2) v).1
        = Sum.inl (okChannel (send ((timeout_expire (chWaiting α ctx)).2) v).1) :=
  ⟨rfl, rfl, rfl, rfl, rfl, rfl⟩

/-- Claim C8: cloning a storage handle (Global or External) yields a handle
that aliases the same Channel - dereferencing the clone and the original on
the same heap gives the same Channel - and cloning is shallow: it copies the
pointer (and, for External, the callback) and nothing else. -/
theorem clone_is_shallow_alias (α : Type) (h : GHeap α) (s : Global α) (e : External α) :
    Global.clone s = s
    ∧ (Global.clone s).ptr = s.ptr
    ∧ Global.as_ref h (Global.clone s) = Global.as_ref h s
    ∧ External.clone e = e
    ∧ (External.clone e).ptr = e.ptr
    ∧ (External.clone e).release = e.release
    ∧ External.as_ref h (External.clone e) = External.as_ref h e :=
  ⟨rfl, rfl, rfl, rfl, rfl, rfl, rfl⟩

/-- Claim C9: for an External family created with pointer p and release
callback f, releasing any clone of the family invokes f exactly once, with
exactly the pointer p supplied at creation (the event trace is the singleton
invocation of f at p). -/
theorem external_release_callback_once (α : Type) (p f n : Nat) (cell : Channel α) :
    (External.releaseWithCell cell ((External.clone)^[n] (External.new α p f))).2.2
      = [Event.callbackInvoked f p] := by
  rw [external_clone_iterate]
  rfl

/-- Claim C10: as_inner is non-consuming - each call returns the undelivered
message, leaves the SendError unchanged, and produces no resource event (no
release, no message drop) - so into_inner after any number of as_inner calls
still returns the original value. -/
theorem as_inner_non_consuming (α : Type) (v : α) (st : State) (w r : Nat) (n : Nat) :
    (asInnerCall (⟨⟨st, some v, w, r⟩⟩ : SendError α)).1 = some v
    ∧ (asInnerCall (⟨⟨st, some v, w, r⟩⟩ : SendError α)).2.1 = ⟨⟨st, some v, w, r⟩⟩
    ∧ (asInnerCall (⟨⟨st, some v, w, r⟩⟩ : SendError α)).2.2 = ([] : List Event)
    ∧ (SendError.into_inner
        ((fun x => (asInnerCall x).2.1)^[n] (⟨⟨st, some v, w, r⟩⟩ : SendError α))).1
      = some v := by
  refine ⟨rfl, rfl, rfl, ?_⟩
  rw [Function.iterate_fixed rfl n]
  rfl

end Oneshot
